import Mathlib

/-!
Verification of the session/normalization core of the storyline-ai-bridge
Netlify backend (`netlify/functions/generate.js` and the provider adapter
files `providers/openai.js`, `providers/yandex.js`, plus the Mistral adapter).

The JavaScript source is shallowly embedded: each JS function becomes a Lean
function over explicit data, network calls become oracle parameters
(functions supplied to the model), store operations become `Except`-valued
oracles and an explicit effect log, and JS `undefined` string values are
modelled as `Option String` (with `undefined` collapsing to `""` at the few
places the source would store an `undefined` field as text).
-/

/-- Message role. The source uses the string literals 'system' / 'user' /
'assistant'; these are the only roles it ever constructs. -/
inductive Role where
  | system
  | user
  | assistant
deriving DecidableEq, Repr

/-- One conversation turn: a role-tagged text message, as built by
`formatMessagesForProvider` and by the session persistence code.
Timestamps on stored messages are `Date.now()` values that no claimed
behaviour reads back; they are not part of this model of a turn. -/
structure Turn where
  role : Role
  text : String
deriving DecidableEq, Repr

/-- Session state as persisted by `generate.js` (`createNewSession`). -/
structure Session where
  systemPrompt : String
  messages : List Turn
  createdAt : Nat
  lastActivity : Nat
deriving DecidableEq, Repr

/-- MAX_MESSAGES_IN_SESSION from `generate.js` line 54. -/
def MAX_MESSAGES_IN_SESSION : Nat := 20

/-- JS truthiness of a string: `""` is falsy, every other string truthy. -/
def strTruthy (s : String) : Bool := s != ""

/-- JS `String.prototype.trim`: strip whitespace from both ends. -/
def jsTrim (s : String) : String :=
  String.mk (((s.data.dropWhile Char.isWhitespace).reverse.dropWhile Char.isWhitespace).reverse)

/-- JS `String.prototype.toLowerCase` (over the ASCII range the provider
selector uses). -/
def jsToLower (s : String) : String := String.mk (s.data.map Char.toLower)

/-- JS truthiness of a possibly-undefined string. -/
def optTruthy (o : Option String) : Bool :=
  match o with
  | some s => strTruthy s
  | none => false

/-- JS `x || d` for a possibly-undefined string `x` and a string default. -/
def jsOrD (o : Option String) (d : String) : String :=
  if optTruthy o then o.getD "" else d

/-- JS `a || b` for two possibly-undefined strings, collapsing an
`undefined` overall result to `""` (the only places the handler stores such
a value never read it back as anything but text). -/
def jsOrOpt (a b : Option String) : String :=
  if optTruthy a then a.getD "" else if optTruthy b then b.getD "" else ""

/-- JS `Array.prototype.slice(-n)` on a list, for a natural `n`: the last
`n` elements, except that `slice(-0)` is `slice(0)` and yields the whole
array (in JS `-0 === 0`). -/
def jsSliceFromEnd (l : List Turn) (n : Nat) : List Turn :=
  if n = 0 then l else l.drop (l.length - n)

/-- trimSessionHistory from `generate.js` lines 149-153: return the list
unchanged when its length is within the bound, else `slice(-maxMessages)`.
The source gives `maxMessages` the default value MAX_MESSAGES_IN_SESSION;
callers here pass it explicitly. -/
def trimSessionHistory (messages : List Turn) (maxMessages : Nat) : List Turn :=
  if messages.length ≤ maxMessages then messages
  else jsSliceFromEnd messages maxMessages

/-- formatMessagesForProvider from `generate.js` lines 166-183. The JS
guards are `systemPrompt && systemPrompt.trim()` and
`newUserMessage && newUserMessage.trim()` (truthiness of the string and of
its trimmed form). -/
def formatMessagesForProvider (systemPrompt : String) (messages : List Turn)
    (newUserMessage : String) : List Turn :=
  let allMessages : List Turn :=
    if strTruthy systemPrompt && strTruthy (jsTrim systemPrompt) then
      [{ role := Role.system, text := systemPrompt }]
    else []
  let allMessages := allMessages ++ messages
  if strTruthy newUserMessage && strTruthy (jsTrim newUserMessage) then
    allMessages ++ [{ role := Role.user, text := newUserMessage }]
  else allMessages

/-- createNewSession from `generate.js` lines 130-137 (`Date.now()` is the
`now` parameter). -/
def createNewSession (systemPrompt : String) (now : Nat) : Session :=
  { systemPrompt := systemPrompt
    messages := []
    createdAt := now
    lastActivity := now }

/-- C7 counterexample: the claim says `trim(history, maxLen)` returns the
last `maxLen` elements whenever the history is longer; at `maxLen = 0` with
a one-element history the last 0 elements would be `[]`, but the source's
`slice(-0)` selects the whole array, so the history comes back unchanged. -/
theorem C7_counterexample :
    trimSessionHistory [⟨Role.user, "a"⟩] 0 = [⟨Role.user, "a"⟩] ∧
    trimSessionHistory [⟨Role.user, "a"⟩] 0 ≠ [] := by decide

/-- C7 (amended): trim returns the history unchanged when its length is at
most `maxLen`; for positive `maxLen` smaller than the length it returns
exactly the last `maxLen` elements in original order; for `maxLen = 0` the
JS `slice(-0)` quirk returns the history unchanged. (Purity is inherent to
the embedding: the source's `slice` does not mutate its receiver.) -/
theorem C7_trim_amended : ∀ (messages : List Turn) (maxLen : Nat),
    (messages.length ≤ maxLen → trimSessionHistory messages maxLen = messages) ∧
    (0 < maxLen → maxLen < messages.length →
      trimSessionHistory messages maxLen = messages.drop (messages.length - maxLen) ∧
      (trimSessionHistory messages maxLen).length = maxLen) ∧
    trimSessionHistory messages 0 = messages := by
  intro messages maxLen
  refine ⟨fun h => by simp [trimSessionHistory, h], fun hpos hlt => ?_, ?_⟩
  · have hle : ¬ messages.length ≤ maxLen := by omega
    constructor
    · simp [trimSessionHistory, hle, jsSliceFromEnd, Nat.pos_iff_ne_zero.mp hpos]
    · simp [trimSessionHistory, hle, jsSliceFromEnd, Nat.pos_iff_ne_zero.mp hpos]
      omega
  · by_cases h0 : messages.length = 0
    · have : messages = [] := List.length_eq_zero.mp h0
      simp [this, trimSessionHistory]
    · simp [trimSessionHistory, jsSliceFromEnd, Nat.le_zero, h0]

/-- C7 witness: the amended theorem applied at a concrete three-element
history and `maxLen = 2`. -/
theorem C7_witness :
    (([⟨Role.user, "a"⟩, ⟨Role.assistant, "b"⟩, ⟨Role.user, "c"⟩] : List Turn).length ≤ 5 →
      trimSessionHistory [⟨Role.user, "a"⟩, ⟨Role.assistant, "b"⟩, ⟨Role.user, "c"⟩] 5 =
        [⟨Role.user, "a"⟩, ⟨Role.assistant, "b"⟩, ⟨Role.user, "c"⟩]) ∧
    ((0 < 2 → 2 < ([⟨Role.user, "a"⟩, ⟨Role.assistant, "b"⟩, ⟨Role.user, "c"⟩] : List Turn).length →
      trimSessionHistory [⟨Role.user, "a"⟩, ⟨Role.assistant, "b"⟩, ⟨Role.user, "c"⟩] 2 =
        ([⟨Role.user, "a"⟩, ⟨Role.assistant, "b"⟩, ⟨Role.user, "c"⟩] : List Turn).drop
          (([⟨Role.user, "a"⟩, ⟨Role.assistant, "b"⟩, ⟨Role.user, "c"⟩] : List Turn).length - 2) ∧
      (trimSessionHistory [⟨Role.user, "a"⟩, ⟨Role.assistant, "b"⟩, ⟨Role.user, "c"⟩] 2).length = 2)) :=
  ⟨(C7_trim_amended [⟨Role.user, "a"⟩, ⟨Role.assistant, "b"⟩, ⟨Role.user, "c"⟩] 5).1,
   (C7_trim_amended [⟨Role.user, "a"⟩, ⟨Role.assistant, "b"⟩, ⟨Role.user, "c"⟩] 2).2.1⟩

/-- C3: `formatMessagesForProvider` emits a system turn first iff the
system prompt is non-empty after trimming, then the history unchanged and
in order, then a user turn iff the new user text is non-empty after
trimming; and the two concrete examples from the specification. -/
theorem C3_formatMessages : ∀ (sp : String) (hist : List Turn) (nt : String),
    formatMessagesForProvider sp hist nt =
      (if jsTrim sp = "" then [] else [{ role := Role.system, text := sp }]) ++ hist ++
      (if jsTrim nt = "" then [] else [{ role := Role.user, text := nt }]) ∧
    formatMessagesForProvider "" [] "" = [] ∧
    formatMessagesForProvider "Sys" [] "Hi" =
      [{ role := Role.system, text := "Sys" }, { role := Role.user, text := "Hi" }] := by
  intro sp hist nt
  have key : ∀ s : String, (strTruthy s && strTruthy (jsTrim s)) = !(jsTrim s = "" : Bool) := by
    intro s
    by_cases h : s = ""
    · subst h; decide
    · by_cases h2 : jsTrim s = ""
      · simp [strTruthy, h2]
      · simp [strTruthy, h, h2]
  refine ⟨?_, by decide, by decide⟩
  simp only [formatMessagesForProvider, key]
  by_cases h1 : jsTrim sp = "" <;> by_cases h2 : jsTrim nt = "" <;> simp [h1, h2]

/-- getSession from `generate.js` lines 66-76. The underlying store (and
store construction, `getBlobsStore`) is the oracle `storeGet`, which may
fail (`Except.error`) or report the key absent (`Except.ok none`). The
source catches every failure and returns null. The result type is
`Except`-valued so that "never propagates an error" is a provable fact
rather than a typing accident. -/
def getSession (sessionId : Option String)
    (storeGet : String → Except String (Option Session)) :
    Except String (Option Session) :=
  if optTruthy sessionId then
    match storeGet (sessionId.getD "") with
    | Except.ok sessionData => Except.ok sessionData
    | Except.error _ => Except.ok none
  else Except.ok none

/-- saveSession from `generate.js` lines 88-100: store errors are caught
and logged, never propagated; a falsy id is a no-op. -/
def saveSession (sessionId : Option String) (sessionData : Session)
    (storeSet : String → Session → Except String Unit) : Except String Unit :=
  if optTruthy sessionId then
    match storeSet (sessionId.getD "") sessionData with
    | Except.ok _ => Except.ok ()
    | Except.error _ => Except.ok ()
  else Except.ok ()

/-- deleteSession from `generate.js` lines 111-119: store errors are caught
and logged, never propagated; a falsy id is a no-op. -/
def deleteSession (sessionId : Option String)
    (storeDel : String → Except String Unit) : Except String Unit :=
  if optTruthy sessionId then
    match storeDel (sessionId.getD "") with
    | Except.ok _ => Except.ok ()
    | Except.error _ => Except.ok ()
  else Except.ok ()

/-- C8: store failures never fail the request. `getSession` always returns
normally, and on an underlying store error it returns "absent"; `saveSession`
and `deleteSession` always return normally whatever the store does. -/
theorem C8_store_failsoft :
    ∀ (sid : Option String) (s : Session)
      (storeGet : String → Except String (Option Session))
      (storeSet : String → Session → Except String Unit)
      (storeDel : String → Except String Unit),
    (∃ v, getSession sid storeGet = Except.ok v) ∧
    (∀ e, storeGet (sid.getD "") = Except.error e → getSession sid storeGet = Except.ok none) ∧
    saveSession sid s storeSet = Except.ok () ∧
    deleteSession sid storeDel = Except.ok () := by
  intro sid s storeGet storeSet storeDel
  refine ⟨?_, ?_, ?_, ?_⟩
  · unfold getSession
    split
    · cases storeGet (sid.getD "") <;> exact ⟨_, rfl⟩
    · exact ⟨none, rfl⟩
  · intro e he
    unfold getSession
    split
    · rw [he]
    · rfl
  · unfold saveSession
    split
    · cases storeSet (sid.getD "") s <;> rfl
    · rfl
  · unfold deleteSession
    split
    · cases storeDel (sid.getD "") <;> rfl
    · rfl

/-- C8 witness: the fail-soft behaviour at a concrete session id and a
store whose every operation fails. -/
theorem C8_witness :
    (∃ v, getSession (some "s1") (fun _ => Except.error "down") = Except.ok v) ∧
    (∀ e, (fun (_ : String) => (Except.error "down" : Except String (Option Session))) ((some "s1").getD "") = Except.error e →
      getSession (some "s1") (fun _ => Except.error "down") = Except.ok none) ∧
    saveSession (some "s1") (createNewSession "" 0) (fun _ _ => Except.error "down") = Except.ok () ∧
    deleteSession (some "s1") (fun _ => Except.error "down") = Except.ok () :=
  C8_store_failsoft (some "s1") (createNewSession "" 0)
    (fun _ => Except.error "down") (fun _ _ => Except.error "down") (fun _ => Except.error "down")

/-- An HTTP response as the adapters observe it: the status code and the
response body. For successful chat/transcription responses `body` stands
for the extracted payload text (`data.choices[0].message.content ?? ""`,
`trData.text || ""`, `data.result || ""` — extractions that cannot fail in
the source); for failures it stands for the `safeReadText` of the body. -/
structure HttpResp where
  status : Nat
  body : String
deriving DecidableEq, Repr

/-- Fetch-API `Response.ok`: status in the range 200-299. -/
def respOk (status : Nat) : Bool := 200 ≤ status && status < 300

/-- Failure of a provider adapter: either the thrown `Mistral: no valid
messages to send.` error, or an upstream HTTP failure carried as status
plus detail text (the source folds these into `Error` messages such as
`OpenAI chat error <status>: <body>`). -/
inductive AdapterError where
  | noMessages
  | http (status : Nat) (detail : String)
deriving DecidableEq, Repr

/-- Primary chat model of `providers/openai.js`. -/
def openaiPrimaryModel : String := "gpt-5-nano-2025-08-07"

/-- Fallback chat model of `providers/openai.js`. -/
def openaiFallbackModel : String := "gpt-4o-mini"

/-- Primary transcription model of `providers/openai.js`. -/
def openaiPrimaryTranscribe : String := "gpt-4o-mini-transcribe"

/-- Fallback transcription model of `providers/openai.js`. -/
def openaiFallbackTranscribe : String := "whisper-1"

/-- Statuses on which `providers/openai.js` retries with its fallback
model (chat and transcription alike). -/
def openaiRetryStatuses : List Nat := [400, 404, 422]

/-- Primary chat model of the Mistral adapter. -/
def mistralPrimaryModel : String := "magistral-medium-2509"

/-- Fallback chat model of the Mistral adapter. -/
def mistralFallbackModel : String := "mistral-small-latest"

/-- Statuses on which the Mistral adapter retries with its fallback model. -/
def mistralRetryStatuses : List Nat := [400, 404, 422, 429]

/-- generateTextWithOpenAI from `providers/openai.js` lines 15-65, on the
canonical array input (the handler always passes an array). The network is
the oracle `fetch`, keyed by the model name sent (the only varying part of
the request). Returns the list of models attempted, in order, and the
outcome. -/
def generateTextWithOpenAIModel (fetch : String → HttpResp) :
    List String × Except AdapterError String :=
  let first := fetch openaiPrimaryModel
  let attempts :=
    if !respOk first.status && openaiRetryStatuses.contains first.status then
      [openaiPrimaryModel, openaiFallbackModel]
    else [openaiPrimaryModel]
  let response :=
    if !respOk first.status && openaiRetryStatuses.contains first.status then
      fetch openaiFallbackModel
    else first
  if !respOk response.status then
    (attempts, Except.error (AdapterError.http response.status
      ("OpenAI chat error " ++ toString response.status ++ ": " ++ response.body)))
  else (attempts, Except.ok response.body)

/-- The transcription step of generateTextWithOpenAIAndAudio
(`providers/openai.js` lines 88-123): primary transcription model, one
retry with the fallback transcription model on 400/404/422, error carrying
the final failure's status. Returns attempted models and the transcript. -/
def openaiTranscriptionStep (fetch : String → HttpResp) :
    List String × Except AdapterError String :=
  let trResponse := fetch openaiPrimaryTranscribe
  if !respOk trResponse.status && openaiRetryStatuses.contains trResponse.status then
    let trResponse2 := fetch openaiFallbackTranscribe
    if !respOk trResponse2.status then
      ([openaiPrimaryTranscribe, openaiFallbackTranscribe],
       Except.error (AdapterError.http trResponse2.status
         ("OpenAI transcription error " ++ toString trResponse2.status ++ ": " ++ trResponse2.body)))
    else ([openaiPrimaryTranscribe, openaiFallbackTranscribe], Except.ok trResponse2.body)
  else if !respOk trResponse.status then
    ([openaiPrimaryTranscribe],
     Except.error (AdapterError.http trResponse.status
       ("OpenAI transcription error " ++ toString trResponse.status ++ ": " ++ trResponse.body)))
  else ([openaiPrimaryTranscribe], Except.ok trResponse.body)

/-- Message-list construction of the Mistral adapter on array input:
drop system turns, map roles to assistant/user, keep only messages with
non-blank content. -/
def mistralMessages (input : List Turn) : List Turn :=
  ((input.filter (fun m => m.role ≠ Role.system)).map
    (fun msg => { role := if msg.role = Role.assistant then Role.assistant else Role.user,
                  text := msg.text })).filter
    (fun msg => 0 < (jsTrim msg.text).length)

/-- generateTextWithMistral (Mistral adapter, array input): the separate
top-level system prompt, the no-valid-messages error, and one fallback
retry on 400/404/422/429. Returns attempted models and the outcome. -/
def generateTextWithMistralModel (fetch : String → HttpResp) (input : List Turn) :
    List String × Except AdapterError String :=
  let messages := mistralMessages input
  if messages.isEmpty then ([], Except.error AdapterError.noMessages)
  else
    let first := fetch mistralPrimaryModel
    let attempts :=
      if !respOk first.status && mistralRetryStatuses.contains first.status then
        [mistralPrimaryModel, mistralFallbackModel]
      else [mistralPrimaryModel]
    let response :=
      if !respOk first.status && mistralRetryStatuses.contains first.status then
        fetch mistralFallbackModel
      else first
    if !respOk response.status then
      (attempts, Except.error (AdapterError.http response.status
        ("Mistral chat error " ++ toString response.status ++ ": " ++ response.body)))
    else (attempts, Except.ok response.body)

/-- The message-list rewrite of generateTextWithOpenAIAndAudio on array
input (`providers/openai.js` lines 131-139): when the last message exists
and has role user, its content gets the transcript appended after the
literal label line; otherwise the list is left as mapped. -/
def openaiAudioMessages (input : List Turn) (transcriptText : String) : List Turn :=
  match input.getLast? with
  | some last =>
    if last.role = Role.user then
      input.dropLast ++
        [{ role := last.role,
           text := last.text ++ "\n\nТранскрипция аудио:\n" ++ transcriptText }]
    else input
  | none => input

/-- The message-list rewrite of generateTextWithYandexAndAudio on array
input (`providers/yandex.js` lines 224-234): identical condition, the last
message is replaced by a copy whose text gets the transcript appended. -/
def yandexAudioMessages (input : List Turn) (transcript : String) : List Turn :=
  match input.getLast? with
  | some lastMessage =>
    if lastMessage.role = Role.user then
      input.dropLast ++
        [{ lastMessage with
           text := lastMessage.text ++ "\n\nТранскрипция аудио:\n" ++ transcript }]
    else input
  | none => input

/-- Specification-side description of the transcript merge, written from
the amended claim: append the suffix to the last turn when that turn is a
user turn, otherwise pass the list through unchanged (no turn is
synthesized). Compared against both adapters' source-derived rewrites. -/
def specTranscriptInjection (turns : List Turn) (transcript : String) : List Turn :=
  match turns.getLast? with
  | some t =>
    if t.role = Role.user then
      turns.dropLast ++ [⟨Role.user, t.text ++ "\n\nТранскрипция аудио:\n" ++ transcript⟩]
    else turns
  | none => turns

/-- Result of a two-step audio adapter call: the message list handed to the
chat sub-step, the chat reply, and the transcript from the speech sub-step. -/
structure AudioResult where
  messagesSent : List Turn
  message : String
  transcript : String
deriving DecidableEq, Repr

/-- generateTextWithOpenAIAndAudio (`providers/openai.js` lines 78-207) on
array input: the transcription step with its own fallback, then the
transcript merge, then the chat step with the chat fallback. `fetchTr` is
the transcription endpoint keyed by model; `fetchChat` is the chat endpoint
keyed by model and by the messages carried in the request body. -/
def generateTextWithOpenAIAndAudioModel (fetchTr : String → HttpResp)
    (fetchChat : String → List Turn → HttpResp) (input : List Turn) :
    Except AdapterError AudioResult :=
  match openaiTranscriptionStep fetchTr with
  | (_, Except.error e) => Except.error e
  | (_, Except.ok transcriptText) =>
    let messages := openaiAudioMessages input transcriptText
    let chatResponse := fetchChat openaiPrimaryModel messages
    let response :=
      if !respOk chatResponse.status && openaiRetryStatuses.contains chatResponse.status then
        fetchChat openaiFallbackModel messages
      else chatResponse
    if !respOk response.status then
      Except.error (AdapterError.http response.status
        ("OpenAI chat error " ++ toString response.status ++ ": " ++ response.body))
    else
      Except.ok { messagesSent := messages, message := response.body,
                  transcript := transcriptText }

/-- generateTextWithYandexAndAudio (`providers/yandex.js` lines 219-251) on
array input: transcribeWithYandexSTT (no fallback; `sttResp` is the STT
endpoint's response, whose body stands for `data.result || ""`), then the
transcript merge, then generateTextWithYandex on the combined messages
(no fallback; `fetchChat` is keyed by the messages sent). -/
def generateTextWithYandexAndAudioModel (sttResp : HttpResp)
    (fetchChat : List Turn → HttpResp) (input : List Turn) :
    Except AdapterError AudioResult :=
  if !respOk sttResp.status then
    Except.error (AdapterError.http sttResp.status
      ("Yandex STT error " ++ toString sttResp.status ++ ": " ++ sttResp.body))
  else
    let transcript := sttResp.body
    let messagesWithAudio := yandexAudioMessages input transcript
    let response := fetchChat messagesWithAudio
    if !respOk response.status then
      Except.error (AdapterError.http response.status
        ("YandexGPT error " ++ toString response.status ++ ": " ++ response.body))
    else
      Except.ok { messagesSent := messagesWithAudio, message := response.body,
                  transcript := transcript }

/-- C1 counterexample: on the canonical one-user-turn list with transcript
`T`, both audio adapters append the literal label `Транскрипция аудио:` —
not the claimed `Transcript:` — and on a list with no trailing user turn
(or an empty list) no user turn is created: the list passes unchanged. -/
theorem C1_counterexample :
    openaiAudioMessages [⟨Role.user, "Hi"⟩] "T" =
      [⟨Role.user, "Hi\n\nТранскрипция аудио:\nT"⟩] ∧
    openaiAudioMessages [⟨Role.user, "Hi"⟩] "T" ≠
      [⟨Role.user, "Hi\n\nTranscript:\nT"⟩] ∧
    openaiAudioMessages [⟨Role.assistant, "A"⟩] "T" = [⟨Role.assistant, "A"⟩] ∧
    yandexAudioMessages [⟨Role.assistant, "A"⟩] "T" = [⟨Role.assistant, "A"⟩] ∧
    openaiAudioMessages ([] : List Turn) "T" = [] ∧
    yandexAudioMessages ([] : List Turn) "T" = [] := by decide

/-- C1 (amended): on canonical turn-list input both two-step audio adapters
merge the transcript by appending `"\n\nТранскрипция аудио:\n<transcript>"`
to the last turn exactly when that turn is a user turn, and otherwise pass
the list to the chat step unchanged (no user turn is synthesized); on
success the transcript of the speech sub-step is returned in the result and
the chat sub-step receives exactly the merged list. -/
theorem C1_audio_amended : ∀ (input : List Turn) (tr : String)
    (fetchTr : String → HttpResp) (fetchChat : String → List Turn → HttpResp)
    (sttResp : HttpResp) (yChat : List Turn → HttpResp),
    openaiAudioMessages input tr = specTranscriptInjection input tr ∧
    yandexAudioMessages input tr = specTranscriptInjection input tr ∧
    (∀ r, generateTextWithOpenAIAndAudioModel fetchTr fetchChat input = Except.ok r →
      r.messagesSent = specTranscriptInjection input r.transcript ∧
      (openaiTranscriptionStep fetchTr).2 = Except.ok r.transcript) ∧
    (∀ r, generateTextWithYandexAndAudioModel sttResp yChat input = Except.ok r →
      r.messagesSent = specTranscriptInjection input r.transcript ∧
      r.transcript = sttResp.body) := by
  intro input tr fetchTr fetchChat sttResp yChat
  have hoa : ∀ t, openaiAudioMessages input t = specTranscriptInjection input t := by
    intro t
    unfold openaiAudioMessages specTranscriptInjection
    cases h : input.getLast? with
    | none => rfl
    | some last =>
      by_cases hr : last.role = Role.user
      · simp [hr]
      · simp [hr]
  have hya : ∀ t, yandexAudioMessages input t = specTranscriptInjection input t := by
    intro t
    unfold yandexAudioMessages specTranscriptInjection
    cases h : input.getLast? with
    | none => rfl
    | some last =>
      by_cases hr : last.role = Role.user
      · simp [hr]
      · simp [hr]
  refine ⟨hoa tr, hya tr, ?_, ?_⟩
  · intro r hr
    unfold generateTextWithOpenAIAndAudioModel at hr
    cases htr : openaiTranscriptionStep fetchTr with
    | mk attempts out =>
      rw [htr] at hr
      cases out with
      | error e => simp at hr
      | ok transcriptText =>
        simp only at hr
        split at hr <;> split at hr <;>
          first
          | exact Except.noConfusion hr
          | (cases hr
             exact ⟨hoa transcriptText, rfl⟩)
  · intro r hr
    unfold generateTextWithYandexAndAudioModel at hr
    split at hr
    · exact Except.noConfusion hr
    · simp only at hr
      split at hr
      · exact Except.noConfusion hr
      · cases hr
        exact ⟨hya sttResp.body, rfl⟩

/-- C1 witness: the amended theorem applied at a concrete history ending in
a user turn, with a transcription endpoint answering 200 `privet` and chat
endpoints answering 200. -/
theorem C1_witness :
    (∀ r, generateTextWithOpenAIAndAudioModel (fun _ => ⟨200, "privet"⟩)
        (fun _ _ => ⟨200, "otvet"⟩) [⟨Role.user, "Hi"⟩] = Except.ok r →
      r.messagesSent = specTranscriptInjection [⟨Role.user, "Hi"⟩] r.transcript ∧
      (openaiTranscriptionStep (fun _ => ⟨200, "privet"⟩)).2 = Except.ok r.transcript) :=
  (C1_audio_amended [⟨Role.user, "Hi"⟩] "T" (fun _ => ⟨200, "privet"⟩)
    (fun _ _ => ⟨200, "otvet"⟩) ⟨200, "privet"⟩ (fun _ => ⟨200, "otvet"⟩)).2.2.1

/-- Each OpenAI retry status is a non-ok status. -/
theorem openaiRetryNotOk (s : Nat) (h : s ∈ openaiRetryStatuses) : respOk s = false := by
  fin_cases h <;> decide

/-- Each Mistral retry status is a non-ok status. -/
theorem mistralRetryNotOk (s : Nat) (h : s ∈ mistralRetryStatuses) : respOk s = false := by
  fin_cases h <;> decide

/-- C6: a primary response with a retryable status (400/404/422 for
OpenAI chat and transcription, plus 429 for Mistral) triggers exactly one
retry against the secondary model, and given two consecutive failures the
adapter fails carrying the second failure's status; the same pattern is
applied independently by the OpenAI transcription step. -/
theorem C6_fallback : ∀ (fetch fetchT fetchM : String → HttpResp) (input : List Turn),
    ((fetch openaiPrimaryModel).status ∈ openaiRetryStatuses →
      (generateTextWithOpenAIModel fetch).1 = [openaiPrimaryModel, openaiFallbackModel] ∧
      (respOk (fetch openaiFallbackModel).status = false →
        ∃ d, (generateTextWithOpenAIModel fetch).2 =
          Except.error (AdapterError.http (fetch openaiFallbackModel).status d))) ∧
    ((fetchT openaiPrimaryTranscribe).status ∈ openaiRetryStatuses →
      (openaiTranscriptionStep fetchT).1 = [openaiPrimaryTranscribe, openaiFallbackTranscribe] ∧
      (respOk (fetchT openaiFallbackTranscribe).status = false →
        ∃ d, (openaiTranscriptionStep fetchT).2 =
          Except.error (AdapterError.http (fetchT openaiFallbackTranscribe).status d))) ∧
    (mistralMessages input ≠ [] →
      (fetchM mistralPrimaryModel).status ∈ mistralRetryStatuses →
      (generateTextWithMistralModel fetchM input).1 = [mistralPrimaryModel, mistralFallbackModel] ∧
      (respOk (fetchM mistralFallbackModel).status = false →
        ∃ d, (generateTextWithMistralModel fetchM input).2 =
          Except.error (AdapterError.http (fetchM mistralFallbackModel).status d))) := by
  intro fetch fetchT fetchM input
  refine ⟨fun h => ?_, fun h => ?_, fun hne h => ?_⟩
  · constructor
    · simp [generateTextWithOpenAIModel, openaiRetryNotOk _ h, h]
      split <;> rfl
    · intro hf
      refine ⟨"OpenAI chat error " ++ toString (fetch openaiFallbackModel).status ++ ": " ++
        (fetch openaiFallbackModel).body, ?_⟩
      simp [generateTextWithOpenAIModel, openaiRetryNotOk _ h, h, hf]
  · constructor
    · simp [openaiTranscriptionStep, openaiRetryNotOk _ h, h]
      split <;> rfl
    · intro hf
      refine ⟨"OpenAI transcription error " ++ toString (fetchT openaiFallbackTranscribe).status ++ ": " ++
        (fetchT openaiFallbackTranscribe).body, ?_⟩
      simp [openaiTranscriptionStep, openaiRetryNotOk _ h, h, hf]
  · have hne' : (mistralMessages input).isEmpty = false := by
      cases hm : mistralMessages input with
      | nil => exact absurd hm hne
      | cons a l => rfl
    constructor
    · simp [generateTextWithMistralModel, hne', mistralRetryNotOk _ h, h]
      split <;> rfl
    · intro hf
      refine ⟨"Mistral chat error " ++ toString (fetchM mistralFallbackModel).status ++ ": " ++
        (fetchM mistralFallbackModel).body, ?_⟩
      simp [generateTextWithMistralModel, hne', mistralRetryNotOk _ h, h, hf]

/-- C6 witness: a network answering 422 to every OpenAI request, 404 to
every transcription request and 429 to every Mistral request produces
exactly one fallback retry in each adapter, and the OpenAI chat failure
carries the second failure's status. -/
theorem C6_witness :
    (generateTextWithOpenAIModel (fun _ => ⟨422, "boom"⟩)).1 =
      [openaiPrimaryModel, openaiFallbackModel] ∧
    (∃ d, (generateTextWithOpenAIModel (fun _ => ⟨422, "boom"⟩)).2 =
      Except.error (AdapterError.http 422 d)) ∧
    (openaiTranscriptionStep (fun _ => ⟨404, "gone"⟩)).1 =
      [openaiPrimaryTranscribe, openaiFallbackTranscribe] ∧
    (generateTextWithMistralModel (fun _ => ⟨429, "slow"⟩) [⟨Role.user, "Hi"⟩]).1 =
      [mistralPrimaryModel, mistralFallbackModel] := by
  have h := C6_fallback (fun _ => ⟨422, "boom"⟩) (fun _ => ⟨404, "gone"⟩)
    (fun _ => ⟨429, "slow"⟩) [⟨Role.user, "Hi"⟩]
  exact ⟨(h.1 (by decide)).1, (h.1 (by decide)).2 (by decide),
    (h.2.1 (by decide)).1, (h.2.2 (by decide) (by decide)).1⟩

/-- Outcome of one provider adapter invocation as the handler observes it:
the generated message and, for the two-step audio adapters, the transcript.
For `generateTextWithGemini`/`generateTextWithGeminiAndAudio` (which return
a plain string) only `message` is read. -/
structure ProviderResult where
  message : String
  transcript : Option String
deriving DecidableEq, Repr

/-- One adapter invocation performed by the handler, recording which
adapter function was called and the canonical message list (and audio
payload) passed to it. -/
inductive AdapterCall where
  | geminiText (messages : List Turn)
  | openaiText (messages : List Turn)
  | yandexText (messages : List Turn)
  | geminiAudio (messages : List Turn) (audioBase64 : String)
  | openaiAudio (messages : List Turn) (audioBase64 : String)
  | yandexAudio (messages : List Turn) (audioBase64 : String)
deriving DecidableEq, Repr

/-- A store mutation performed (attempted) by the handler: a `saveSession`
or a `deleteSession` call. Loads do not mutate and are not recorded. -/
inductive StoreEffect where
  | save (id : String) (sessionData : Session)
  | del (id : String)
deriving DecidableEq, Repr

/-- The response body shapes produced by the handler: the success payload,
the end-session confirmation, the error payload, and the empty OPTIONS
body. `generatedText` is an `Option` because the source leaves `text`
undefined when the provider selector matches no adapter. -/
inductive RespBody where
  | success (generatedText : Option String) (transcript : Option String)
      (sessionId : Option String) (turns : Nat)
  | sessionEnded (sessionId : String) (provider : String)
  | errorMsg (msg : String)
  | empty
deriving DecidableEq, Repr

/-- An HTTP response returned by the handler. -/
structure Resp where
  statusCode : Nat
  body : RespBody
deriving DecidableEq, Repr

/-- Everything one handler invocation produces: the response, the store
mutations in order, and the adapter invocations in order. -/
structure HandlerResult where
  resp : Resp
  effects : List StoreEffect
  calls : List AdapterCall
deriving DecidableEq, Repr

/-- The environment configuration read by the handler (`generate.js`
lines 258-262): the provider selector and the credentials, each a
possibly-undefined string. -/
structure Env where
  aiProvider : Option String
  geminiApiKey : Option String
  openaiApiKey : Option String
  yandexApiKey : Option String
  yandexFolderId : Option String
deriving Repr

/-- The request fields the handler reads after body parsing. For a JSON
body these come from `JSON.parse`; for a multipart body from the busboy
fields (where `endSession`/`resetContext` are the string comparison
`=== 'true'`); the parse itself is outside this model. `audio` is the
base64 content of the `audio` file part when one is present. -/
structure Fields where
  prompt : Option String
  system : Option String
  sessionId : Option String
  endSession : Bool
  resetContext : Bool
  audioFormat : Option String
  audio : Option String
deriving Repr

/-- The incoming event: HTTP method, content-type header, and the parsed
body fields. -/
structure Event where
  httpMethod : String
  contentType : Option String
  fields : Fields
deriving Repr

/-- JS `contentType && contentType.startsWith(p)`. -/
def ctStartsWith (ct : Option String) (p : String) : Bool :=
  match ct with
  | some c => p.data.isPrefixOf c.data
  | none => false

/-- Session resolution shared by both handler branches (`generate.js`
lines 293-303 and 388-398): load when a session id is given (via the
fail-soft `getSession`), clear the message list on `resetContext`, and
fall back to a fresh session whose system prompt is `system || ''`. -/
def resolveSession (sessionId : Option String) (resetContext : Bool)
    (system : Option String) (storeGet : String → Except String (Option Session))
    (now : Nat) : Session :=
  let loaded : Option Session :=
    if optTruthy sessionId then
      match getSession sessionId storeGet with
      | Except.ok v => v
      | Except.error _ => none
    else none
  let loaded : Option Session :=
    match loaded with
    | some s => if resetContext then some { s with messages := [], lastActivity := now } else some s
    | none => none
  match loaded with
  | some s => s
  | none => createNewSession (jsOrD system "") now

/-- The two `session.messages.push(...)` calls followed by
`trimSessionHistory` (`generate.js` lines 344-346 and 432-434): append the
user/assistant pair and trim to the cap. -/
def appendExchange (messages : List Turn) (userText assistantText : String) : List Turn :=
  trimSessionHistory
    (messages ++ [{ role := Role.user, text := userText },
                  { role := Role.assistant, text := assistantText }])
    MAX_MESSAGES_IN_SESSION

/-- The persistence block guarded by `if (sessionId)` (`generate.js`
lines 343-349 and 431-437): append the exchange, bump `lastActivity` and
save. Returns the session variable as the response code then sees it and
the store mutations performed. -/
def persistExchange (sessionId : Option String) (session : Session)
    (userText assistantText : String) (now : Nat) : Session × List StoreEffect :=
  if optTruthy sessionId then
    let updated : Session :=
      { session with
        messages := appendExchange session.messages userText assistantText
        lastActivity := now }
    (updated, [StoreEffect.save (sessionId.getD "") updated])
  else (session, [])

/-- Outcome of the provider dispatch section of the handler. -/
inductive DispatchOut where
  | keyMissing (msg : String)
  | failed (call : AdapterCall) (msg : String)
  | done (call : AdapterCall) (text : Option String) (transcript : Option String)
  | skipped
deriving DecidableEq, Repr

/-- The adapter calls recorded by a dispatch outcome. -/
def DispatchOut.callList : DispatchOut → List AdapterCall
  | DispatchOut.keyMissing _ => []
  | DispatchOut.failed c _ => [c]
  | DispatchOut.done c _ _ => [c]
  | DispatchOut.skipped => []

/-- The text-pipeline dispatch of `generate.js` lines 405-428: route on the
provider selector to openai / gemini / yandex, returning the credential
error before any adapter call when the needed keys are falsy; any other
selector value matches no branch and leaves `text` undefined. The adapter
itself is the oracle `adapter`. -/
def dispatchTextStep (provider : String) (env : Env)
    (adapter : AdapterCall → Except String ProviderResult)
    (messages : List Turn) : DispatchOut :=
  if provider = "openai" then
    if !optTruthy env.openaiApiKey then DispatchOut.keyMissing "OPENAI_API_KEY не задан."
    else
      match adapter (AdapterCall.openaiText messages) with
      | Except.error m => DispatchOut.failed (AdapterCall.openaiText messages) m
      | Except.ok r => DispatchOut.done (AdapterCall.openaiText messages) (some r.message) none
  else if provider = "gemini" then
    if !optTruthy env.geminiApiKey then DispatchOut.keyMissing "GEMINI_API_KEY не задан."
    else
      match adapter (AdapterCall.geminiText messages) with
      | Except.error m => DispatchOut.failed (AdapterCall.geminiText messages) m
      | Except.ok r => DispatchOut.done (AdapterCall.geminiText messages) (some r.message) none
  else if provider = "yandex" then
    if !optTruthy env.yandexApiKey || !optTruthy env.yandexFolderId then
      DispatchOut.keyMissing "YANDEX_API_KEY/YANDEX_FOLDER_ID не заданы."
    else
      match adapter (AdapterCall.yandexText messages) with
      | Except.error m => DispatchOut.failed (AdapterCall.yandexText messages) m
      | Except.ok r => DispatchOut.done (AdapterCall.yandexText messages) (some r.message) none
  else DispatchOut.skipped

/-- The audio-pipeline dispatch of `generate.js` lines 312-340: same
routing and credential checks; openai and yandex surface the transcript
from their two-step adapters, gemini returns a plain string and leaves the
transcript undefined; any other selector value matches no branch. -/
def dispatchAudioStep (provider : String) (env : Env)
    (adapter : AdapterCall → Except String ProviderResult)
    (messages : List Turn) (audioBase64 : String) : DispatchOut :=
  if provider = "openai" then
    if !optTruthy env.openaiApiKey then DispatchOut.keyMissing "OPENAI_API_KEY не задан."
    else
      match adapter (AdapterCall.openaiAudio messages audioBase64) with
      | Except.error m => DispatchOut.failed (AdapterCall.openaiAudio messages audioBase64) m
      | Except.ok r =>
        DispatchOut.done (AdapterCall.openaiAudio messages audioBase64) (some r.message) r.transcript
  else if provider = "gemini" then
    if !optTruthy env.geminiApiKey then DispatchOut.keyMissing "GEMINI_API_KEY не задан."
    else
      match adapter (AdapterCall.geminiAudio messages audioBase64) with
      | Except.error m => DispatchOut.failed (AdapterCall.geminiAudio messages audioBase64) m
      | Except.ok r =>
        DispatchOut.done (AdapterCall.geminiAudio messages audioBase64) (some r.message) none
  else if provider = "yandex" then
    if !optTruthy env.yandexApiKey || !optTruthy env.yandexFolderId then
      DispatchOut.keyMissing "YANDEX_API_KEY/YANDEX_FOLDER_ID не заданы."
    else
      match adapter (AdapterCall.yandexAudio messages audioBase64) with
      | Except.error m => DispatchOut.failed (AdapterCall.yandexAudio messages audioBase64) m
      | Except.ok r =>
        DispatchOut.done (AdapterCall.yandexAudio messages audioBase64) (some r.message) r.transcript
  else DispatchOut.skipped

/-- The JSON branch of the handler (`generate.js` lines 359-375 for the
parse and validation, then the shared tail 378-444): reject a falsy
prompt, honor end-session, resolve the session, build the canonical
messages, dispatch, persist, respond. `throw` sites become the 500
`{error}` response the top-level catch would produce. -/
def handleJsonBranch (provider : String) (env : Env) (f : Fields)
    (storeGet : String → Except String (Option Session))
    (adapter : AdapterCall → Except String ProviderResult)
    (now : Nat) : HandlerResult :=
  if !optTruthy f.prompt then
    { resp := ⟨500, RespBody.errorMsg "Промпт не предоставлен."⟩, effects := [], calls := [] }
  else if f.endSession && optTruthy f.sessionId then
    { resp := ⟨200, RespBody.sessionEnded (f.sessionId.getD "") provider⟩,
      effects := [StoreEffect.del (f.sessionId.getD "")], calls := [] }
  else
    let session := resolveSession f.sessionId f.resetContext f.system storeGet now
    let messagesForProvider :=
      formatMessagesForProvider session.systemPrompt session.messages (f.prompt.getD "")
    match dispatchTextStep provider env adapter messagesForProvider with
    | DispatchOut.keyMissing m =>
      { resp := ⟨500, RespBody.errorMsg m⟩, effects := [], calls := [] }
    | DispatchOut.failed c m =>
      { resp := ⟨500, RespBody.errorMsg m⟩, effects := [], calls := [c] }
    | DispatchOut.done c text _ =>
      let pe := persistExchange f.sessionId session (f.prompt.getD "") (text.getD "") now
      { resp := ⟨200, RespBody.success text none f.sessionId (pe.1.messages.length / 2)⟩,
        effects := pe.2, calls := [c] }
    | DispatchOut.skipped =>
      let pe := persistExchange f.sessionId session (f.prompt.getD "") "" now
      { resp := ⟨200, RespBody.success none none f.sessionId (pe.1.messages.length / 2)⟩,
        effects := pe.2, calls := [] }

/-- The multipart branch of the handler (`generate.js` lines 268-357):
reject a missing audio part, honor end-session, resolve the session, build
the canonical messages, dispatch the audio pipeline, persist (the user
turn text is `transcript || prompt`), respond with the transcript
included. -/
def handleMultipartBranch (provider : String) (env : Env) (f : Fields)
    (storeGet : String → Except String (Option Session))
    (adapter : AdapterCall → Except String ProviderResult)
    (now : Nat) : HandlerResult :=
  match f.audio with
  | none =>
    { resp := ⟨500, RespBody.errorMsg "Аудиофайл не предоставлен."⟩, effects := [], calls := [] }
  | some audioBase64 =>
    if f.endSession && optTruthy f.sessionId then
      { resp := ⟨200, RespBody.sessionEnded (f.sessionId.getD "") provider⟩,
        effects := [StoreEffect.del (f.sessionId.getD "")], calls := [] }
    else
      let session := resolveSession f.sessionId f.resetContext f.system storeGet now
      let messagesForProvider :=
        formatMessagesForProvider session.systemPrompt session.messages (f.prompt.getD "")
      match dispatchAudioStep provider env adapter messagesForProvider audioBase64 with
      | DispatchOut.keyMissing m =>
        { resp := ⟨500, RespBody.errorMsg m⟩, effects := [], calls := [] }
      | DispatchOut.failed c m =>
        { resp := ⟨500, RespBody.errorMsg m⟩, effects := [], calls := [c] }
      | DispatchOut.done c text transcript =>
        let pe := persistExchange f.sessionId session (jsOrOpt transcript f.prompt) (text.getD "") now
        { resp := ⟨200, RespBody.success text transcript f.sessionId (pe.1.messages.length / 2)⟩,
          effects := pe.2, calls := [c] }
      | DispatchOut.skipped =>
        let pe := persistExchange f.sessionId session (jsOrOpt none f.prompt) "" now
        { resp := ⟨200, RespBody.success none none f.sessionId (pe.1.messages.length / 2)⟩,
          effects := pe.2, calls := [] }

/-- The handler entry (`generate.js` lines 235-454): OPTIONS preflight,
POST-only check, provider selector resolution
(`(process.env.AI_PROVIDER || 'gemini').toLowerCase()`), then the branch on
the content type; an unsupported content type is the thrown error the
top-level catch converts to 500. -/
def handler (env : Env) (event : Event)
    (storeGet : String → Except String (Option Session))
    (adapter : AdapterCall → Except String ProviderResult)
    (now : Nat) : HandlerResult :=
  if event.httpMethod = "OPTIONS" then
    { resp := ⟨204, RespBody.empty⟩, effects := [], calls := [] }
  else if event.httpMethod ≠ "POST" then
    { resp := ⟨405, RespBody.errorMsg "Method Not Allowed"⟩, effects := [], calls := [] }
  else
    let provider := jsToLower (jsOrD env.aiProvider "gemini")
    if ctStartsWith event.contentType "multipart/form-data" then
      handleMultipartBranch provider env event.fields storeGet adapter now
    else if ctStartsWith event.contentType "application/json" then
      handleJsonBranch provider env event.fields storeGet adapter now
    else
      { resp := ⟨500, RespBody.errorMsg ("Неподдерживаемый или отсутствующий Content-Type: " ++
          (event.contentType.getD "undefined"))⟩, effects := [], calls := [] }

/-- A successful dispatch outcome of the text pipeline means the recorded
adapter call was made and returned ok. -/
theorem dispatchText_done_ok : ∀ (provider : String) (env : Env)
    (adapter : AdapterCall → Except String ProviderResult) (messages : List Turn)
    (c : AdapterCall) (text transcript : Option String),
    dispatchTextStep provider env adapter messages = DispatchOut.done c text transcript →
    ∃ r, adapter c = Except.ok r := by
  intro provider env adapter messages c text transcript h
  unfold dispatchTextStep at h
  repeat' split at h
  all_goals cases h
  all_goals (rename_i r heq; exact ⟨r, heq⟩)

/-- A successful dispatch outcome of the audio pipeline means the recorded
adapter call was made and returned ok. -/
theorem dispatchAudio_done_ok : ∀ (provider : String) (env : Env)
    (adapter : AdapterCall → Except String ProviderResult) (messages : List Turn)
    (audioB : String) (c : AdapterCall) (text transcript : Option String),
    dispatchAudioStep provider env adapter messages audioB = DispatchOut.done c text transcript →
    ∃ r, adapter c = Except.ok r := by
  intro provider env adapter messages audioB c text transcript h
  unfold dispatchAudioStep at h
  repeat' split at h
  all_goals cases h
  all_goals (rename_i r heq; exact ⟨r, heq⟩)

/-- Case analysis of the JSON branch: exactly one of the source's return
paths is taken, and the result is the corresponding record. -/
theorem handleJson_spec : ∀ (provider : String) (env : Env) (f : Fields)
    (storeGet : String → Except String (Option Session))
    (adapter : AdapterCall → Except String ProviderResult) (now : Nat)
    (session : Session) (msgs : List Turn),
    session = resolveSession f.sessionId f.resetContext f.system storeGet now →
    msgs = formatMessagesForProvider session.systemPrompt session.messages (f.prompt.getD "") →
    (optTruthy f.prompt = false ∧
      handleJsonBranch provider env f storeGet adapter now =
        ⟨⟨500, RespBody.errorMsg "Промпт не предоставлен."⟩, [], []⟩) ∨
    (optTruthy f.prompt = true ∧ (f.endSession && optTruthy f.sessionId) = true ∧
      handleJsonBranch provider env f storeGet adapter now =
        ⟨⟨200, RespBody.sessionEnded (f.sessionId.getD "") provider⟩,
         [StoreEffect.del (f.sessionId.getD "")], []⟩) ∨
    (optTruthy f.prompt = true ∧ (f.endSession && optTruthy f.sessionId) = false ∧
      ((∃ m, dispatchTextStep provider env adapter msgs = DispatchOut.keyMissing m ∧
         handleJsonBranch provider env f storeGet adapter now =
           ⟨⟨500, RespBody.errorMsg m⟩, [], []⟩) ∨
       (∃ c m, dispatchTextStep provider env adapter msgs = DispatchOut.failed c m ∧
         handleJsonBranch provider env f storeGet adapter now =
           ⟨⟨500, RespBody.errorMsg m⟩, [], [c]⟩) ∨
       (∃ c t tr, dispatchTextStep provider env adapter msgs = DispatchOut.done c t tr ∧
         handleJsonBranch provider env f storeGet adapter now =
           ⟨⟨200, RespBody.success t none f.sessionId
              ((persistExchange f.sessionId session (f.prompt.getD "") (t.getD "") now).1.messages.length / 2)⟩,
            (persistExchange f.sessionId session (f.prompt.getD "") (t.getD "") now).2, [c]⟩) ∨
       (dispatchTextStep provider env adapter msgs = DispatchOut.skipped ∧
         handleJsonBranch provider env f storeGet adapter now =
           ⟨⟨200, RespBody.success none none f.sessionId
              ((persistExchange f.sessionId session (f.prompt.getD "") "" now).1.messages.length / 2)⟩,
            (persistExchange f.sessionId session (f.prompt.getD "") "" now).2, []⟩))) := by
  intro provider env f storeGet adapter now session msgs hs hm
  subst hs
  subst hm
  cases hp : optTruthy f.prompt with
  | false => exact Or.inl ⟨rfl, by simp [handleJsonBranch, hp]⟩
  | true =>
    cases hes : (f.endSession && optTruthy f.sessionId) with
    | true => exact Or.inr (Or.inl ⟨rfl, rfl, by simp [handleJsonBranch, hp, hes]⟩)
    | false =>
      refine Or.inr (Or.inr ⟨rfl, rfl, ?_⟩)
      cases hd : dispatchTextStep provider env adapter
          (formatMessagesForProvider
            (resolveSession f.sessionId f.resetContext f.system storeGet now).systemPrompt
            (resolveSession f.sessionId f.resetContext f.system storeGet now).messages
            (f.prompt.getD "")) with
      | keyMissing m =>
        refine Or.inl ⟨m, ?_, ?_⟩
        · simp [hd]
        · simp [handleJsonBranch, hp, hes, hd]
      | failed c m =>
        refine Or.inr (Or.inl ⟨c, m, ?_, ?_⟩)
        · simp [hd]
        · simp [handleJsonBranch, hp, hes, hd]
      | done c t tr =>
        refine Or.inr (Or.inr (Or.inl ⟨c, t, tr, ?_, ?_⟩))
        · simp [hd]
        · simp [handleJsonBranch, hp, hes, hd]
      | skipped =>
        refine Or.inr (Or.inr (Or.inr ⟨?_, ?_⟩))
        · simp [hd]
        · simp [handleJsonBranch, hp, hes, hd]

/-- Case analysis of the multipart branch: exactly one of the source's
return paths is taken, and the result is the corresponding record. -/
theorem handleMultipart_spec : ∀ (provider : String) (env : Env) (f : Fields)
    (storeGet : String → Except String (Option Session))
    (adapter : AdapterCall → Except String ProviderResult) (now : Nat)
    (session : Session) (msgs : List Turn),
    session = resolveSession f.sessionId f.resetContext f.system storeGet now →
    msgs = formatMessagesForProvider session.systemPrompt session.messages (f.prompt.getD "") →
    (f.audio = none ∧
      handleMultipartBranch provider env f storeGet adapter now =
        ⟨⟨500, RespBody.errorMsg "Аудиофайл не предоставлен."⟩, [], []⟩) ∨
    (∃ ab, f.audio = some ab ∧
      (((f.endSession && optTruthy f.sessionId) = true ∧
        handleMultipartBranch provider env f storeGet adapter now =
          ⟨⟨200, RespBody.sessionEnded (f.sessionId.getD "") provider⟩,
           [StoreEffect.del (f.sessionId.getD "")], []⟩) ∨
       ((f.endSession && optTruthy f.sessionId) = false ∧
        ((∃ m, dispatchAudioStep provider env adapter msgs ab = DispatchOut.keyMissing m ∧
           handleMultipartBranch provider env f storeGet adapter now =
             ⟨⟨500, RespBody.errorMsg m⟩, [], []⟩) ∨
         (∃ c m, dispatchAudioStep provider env adapter msgs ab = DispatchOut.failed c m ∧
           handleMultipartBranch provider env f storeGet adapter now =
             ⟨⟨500, RespBody.errorMsg m⟩, [], [c]⟩) ∨
         (∃ c t tr, dispatchAudioStep provider env adapter msgs ab = DispatchOut.done c t tr ∧
           handleMultipartBranch provider env f storeGet adapter now =
             ⟨⟨200, RespBody.success t tr f.sessionId
                ((persistExchange f.sessionId session (jsOrOpt tr f.prompt) (t.getD "") now).1.messages.length / 2)⟩,
              (persistExchange f.sessionId session (jsOrOpt tr f.prompt) (t.getD "") now).2, [c]⟩) ∨
         (dispatchAudioStep provider env adapter msgs ab = DispatchOut.skipped ∧
           handleMultipartBranch provider env f storeGet adapter now =
             ⟨⟨200, RespBody.success none none f.sessionId
                ((persistExchange f.sessionId session (jsOrOpt none f.prompt) "" now).1.messages.length / 2)⟩,
              (persistExchange f.sessionId session (jsOrOpt none f.prompt) "" now).2, []⟩))))) := by
  intro provider env f storeGet adapter now session msgs hs hm
  subst hs
  subst hm
  cases ha : f.audio with
  | none => exact Or.inl ⟨rfl, by simp [handleMultipartBranch, ha]⟩
  | some ab =>
    refine Or.inr ⟨ab, rfl, ?_⟩
    cases hes : (f.endSession && optTruthy f.sessionId) with
    | true => exact Or.inl ⟨rfl, by simp [handleMultipartBranch, ha, hes]⟩
    | false =>
      refine Or.inr ⟨rfl, ?_⟩
      cases hd : dispatchAudioStep provider env adapter
          (formatMessagesForProvider
            (resolveSession f.sessionId f.resetContext f.system storeGet now).systemPrompt
            (resolveSession f.sessionId f.resetContext f.system storeGet now).messages
            (f.prompt.getD "")) ab with
      | keyMissing m =>
        refine Or.inl ⟨m, ?_, ?_⟩
        · simp [hd]
        · simp [handleMultipartBranch, ha, hes, hd]
      | failed c m =>
        refine Or.inr (Or.inl ⟨c, m, ?_, ?_⟩)
        · simp [hd]
        · simp [handleMultipartBranch, ha, hes, hd]
      | done c t tr =>
        refine Or.inr (Or.inr (Or.inl ⟨c, t, tr, ?_, ?_⟩))
        · simp [hd]
        · simp [handleMultipartBranch, ha, hes, hd]
      | skipped =>
        refine Or.inr (Or.inr (Or.inr ⟨?_, ?_⟩))
        · simp [hd]
        · simp [handleMultipartBranch, ha, hes, hd]

/-- A POST request with a JSON content type runs the JSON branch. -/
theorem handler_json_branch : ∀ (env : Env) (event : Event)
    (storeGet : String → Except String (Option Session))
    (adapter : AdapterCall → Except String ProviderResult) (now : Nat),
    event.httpMethod = "POST" →
    ctStartsWith event.contentType "multipart/form-data" = false →
    ctStartsWith event.contentType "application/json" = true →
    handler env event storeGet adapter now =
      handleJsonBranch (jsToLower (jsOrD env.aiProvider "gemini")) env event.fields
        storeGet adapter now := by
  intro env event storeGet adapter now h1 h2 h3
  have hne : ("POST" : String) ≠ "OPTIONS" := by decide
  simp [handler, h1, h2, h3, hne]

/-- A POST request with a multipart content type runs the multipart branch. -/
theorem handler_multipart_branch : ∀ (env : Env) (event : Event)
    (storeGet : String → Except String (Option Session))
    (adapter : AdapterCall → Except String ProviderResult) (now : Nat),
    event.httpMethod = "POST" →
    ctStartsWith event.contentType "multipart/form-data" = true →
    handler env event storeGet adapter now =
      handleMultipartBranch (jsToLower (jsOrD env.aiProvider "gemini")) env event.fields
        storeGet adapter now := by
  intro env event storeGet adapter now h1 h2
  have hne : ("POST" : String) ≠ "OPTIONS" := by decide
  simp [handler, h1, h2, hne]

/-- A non-POST, non-OPTIONS request, or a POST with an unsupported content
type, produces no effects and no adapter calls. -/
theorem handler_other_empty : ∀ (env : Env) (event : Event)
    (storeGet : String → Except String (Option Session))
    (adapter : AdapterCall → Except String ProviderResult) (now : Nat),
    (event.httpMethod ≠ "POST" ∨
      (ctStartsWith event.contentType "multipart/form-data" = false ∧
       ctStartsWith event.contentType "application/json" = false)) →
    (handler env event storeGet adapter now).effects = [] ∧
    (handler env event storeGet adapter now).calls = [] := by
  intro env event storeGet adapter now h
  unfold handler
  rcases h with h | ⟨h1, h2⟩
  · by_cases ho : event.httpMethod = "OPTIONS"
    · simp [ho]
    · simp [ho, h]
  · by_cases ho : event.httpMethod = "OPTIONS"
    · simp [ho]
    · by_cases hp : event.httpMethod = "POST"
      · simp [ho, hp, h1, h2]
      · simp [ho, hp]

/-- C10: input validation precedes the end-session branch. A multipart
request with `endSession` and a sessionId but no `audio` file part, and a
JSON end-session request without a prompt, both yield an error response and
leave the session undeleted (no store mutation at all). -/
theorem C10_validation_before_endSession : ∀ (env : Env) (ct : String) (f g : Fields)
    (storeGet : String → Except String (Option Session))
    (adapter : AdapterCall → Except String ProviderResult) (now : Nat),
    (ctStartsWith (some ct) "multipart/form-data" = true →
      f.audio = none → f.endSession = true → optTruthy f.sessionId = true →
      (handler env ⟨"POST", some ct, f⟩ storeGet adapter now).resp.statusCode = 500 ∧
      (handler env ⟨"POST", some ct, f⟩ storeGet adapter now).effects = []) ∧
    (ctStartsWith (some ct) "multipart/form-data" = false →
      ctStartsWith (some ct) "application/json" = true →
      optTruthy g.prompt = false → g.endSession = true → optTruthy g.sessionId = true →
      (handler env ⟨"POST", some ct, g⟩ storeGet adapter now).resp.statusCode = 500 ∧
      (handler env ⟨"POST", some ct, g⟩ storeGet adapter now).effects = []) := by
  intro env ct f g storeGet adapter now
  constructor
  · intro hct ha _ _
    rw [handler_multipart_branch env ⟨"POST", some ct, f⟩ storeGet adapter now rfl hct]
    simp [handleMultipartBranch, ha]
  · intro hm hj hp _ _
    rw [handler_json_branch env ⟨"POST", some ct, g⟩ storeGet adapter now rfl hm hj]
    simp [handleJsonBranch, hp]

/-- C10 witness: concrete instances of both rejected end-session shapes. -/
theorem C10_witness :
    ((handler ⟨some "gemini", some "k", none, none, none⟩
        ⟨"POST", some "multipart/form-data", ⟨none, none, some "s1", true, false, none, none⟩⟩
        (fun _ => Except.ok none) (fun _ => Except.ok ⟨"r", none⟩) 0).resp.statusCode = 500 ∧
      (handler ⟨some "gemini", some "k", none, none, none⟩
        ⟨"POST", some "multipart/form-data", ⟨none, none, some "s1", true, false, none, none⟩⟩
        (fun _ => Except.ok none) (fun _ => Except.ok ⟨"r", none⟩) 0).effects = []) ∧
    ((handler ⟨some "gemini", some "k", none, none, none⟩
        ⟨"POST", some "application/json", ⟨none, none, some "s1", true, false, none, none⟩⟩
        (fun _ => Except.ok none) (fun _ => Except.ok ⟨"r", none⟩) 0).resp.statusCode = 500 ∧
      (handler ⟨some "gemini", some "k", none, none, none⟩
        ⟨"POST", some "application/json", ⟨none, none, some "s1", true, false, none, none⟩⟩
        (fun _ => Except.ok none) (fun _ => Except.ok ⟨"r", none⟩) 0).effects = []) :=
  ⟨(C10_validation_before_endSession ⟨some "gemini", some "k", none, none, none⟩
      "multipart/form-data" ⟨none, none, some "s1", true, false, none, none⟩
      ⟨none, none, some "s1", true, false, none, none⟩
      (fun _ => Except.ok none) (fun _ => Except.ok ⟨"r", none⟩) 0).1
      (by decide) rfl rfl (by decide),
   (C10_validation_before_endSession ⟨some "gemini", some "k", none, none, none⟩
      "application/json" ⟨none, none, some "s1", true, false, none, none⟩
      ⟨none, none, some "s1", true, false, none, none⟩
      (fun _ => Except.ok none) (fun _ => Except.ok ⟨"r", none⟩) 0).2
      (by decide) (by decide) rfl rfl (by decide)⟩

/-- C5: when the handler invoked a provider adapter and that adapter
failed, the request short-circuits to the 500 error response with no store
mutation at all: the stored session is untouched. -/
theorem C5_provider_error_atomic : ∀ (env : Env) (event : Event)
    (storeGet : String → Except String (Option Session))
    (adapter : AdapterCall → Except String ProviderResult) (now : Nat)
    (c : AdapterCall) (m : String),
    c ∈ (handler env event storeGet adapter now).calls →
    adapter c = Except.error m →
    (handler env event storeGet adapter now).effects = [] ∧
    (handler env event storeGet adapter now).resp.statusCode = 500 := by
  intro env event storeGet adapter now c m hc he
  by_cases hpost : event.httpMethod = "POST"
  · by_cases hct1 : ctStartsWith event.contentType "multipart/form-data" = true
    · rw [handler_multipart_branch env event storeGet adapter now hpost hct1] at hc ⊢
      rcases handleMultipart_spec (jsToLower (jsOrD env.aiProvider "gemini")) env event.fields
          storeGet adapter now _ _ rfl rfl with
        ⟨_, hr⟩ | ⟨ab, _, ⟨_, hr⟩ | ⟨_, hcase⟩⟩
      · rw [hr] at hc; simp at hc
      · rw [hr] at hc; simp at hc
      · rcases hcase with ⟨m', hd, hr⟩ | ⟨c', m', hd, hr⟩ | ⟨c', t', tr', hd, hr⟩ | ⟨hd, hr⟩
        · rw [hr] at hc; simp at hc
        · rw [hr] at hc ⊢
          simp at hc
          subst hc
          exact ⟨rfl, rfl⟩
        · rw [hr] at hc
          simp at hc
          subst hc
          obtain ⟨r, hok⟩ := dispatchAudio_done_ok _ _ _ _ _ _ _ _ hd
          rw [hok] at he
          exact absurd he (by simp)
        · rw [hr] at hc; simp at hc
    · by_cases hct2 : ctStartsWith event.contentType "application/json" = true
      · rw [handler_json_branch env event storeGet adapter now hpost
          (by simpa using hct1) hct2] at hc ⊢
        rcases handleJson_spec (jsToLower (jsOrD env.aiProvider "gemini")) env event.fields
            storeGet adapter now _ _ rfl rfl with
          ⟨_, hr⟩ | ⟨_, _, hr⟩ | ⟨_, _, hcase⟩
        · rw [hr] at hc; simp at hc
        · rw [hr] at hc; simp at hc
        · rcases hcase with ⟨m', hd, hr⟩ | ⟨c', m', hd, hr⟩ | ⟨c', t', tr', hd, hr⟩ | ⟨hd, hr⟩
          · rw [hr] at hc; simp at hc
          · rw [hr] at hc ⊢
            simp at hc
            subst hc
            exact ⟨rfl, rfl⟩
          · rw [hr] at hc
            simp at hc
            subst hc
            obtain ⟨r, hok⟩ := dispatchText_done_ok _ _ _ _ _ _ _ hd
            rw [hok] at he
            exact absurd he (by simp)
          · rw [hr] at hc; simp at hc
      · have := handler_other_empty env event storeGet adapter now
          (Or.inr ⟨by simpa using hct1, by simpa using hct2⟩)
        rw [this.2] at hc
        simp at hc
  · have := handler_other_empty env event storeGet adapter now (Or.inl hpost)
    rw [this.2] at hc
    simp at hc

/-- C5 witness: a JSON request with a session whose provider adapter
always fails produces the 500 response and no store mutation. -/
theorem C5_witness :
    (handler ⟨some "gemini", some "k", none, none, none⟩
        ⟨"POST", some "application/json", ⟨some "Hello", none, some "s1", false, false, none, none⟩⟩
        (fun _ => Except.ok none) (fun _ => Except.error "boom") 0).effects = [] ∧
    (handler ⟨some "gemini", some "k", none, none, none⟩
        ⟨"POST", some "application/json", ⟨some "Hello", none, some "s1", false, false, none, none⟩⟩
        (fun _ => Except.ok none) (fun _ => Except.error "boom") 0).resp.statusCode = 500 :=
  C5_provider_error_atomic ⟨some "gemini", some "k", none, none, none⟩
    ⟨"POST", some "application/json", ⟨some "Hello", none, some "s1", false, false, none, none⟩⟩
    (fun _ => Except.ok none) (fun _ => Except.error "boom") 0
    (AdapterCall.geminiText [⟨Role.user, "Hello"⟩]) "boom" (by decide) rfl

/-- C2 counterexample: with the selector set to `mistral` (and every
configured credential present) the handler neither routes to any adapter
nor fails with a config error: it answers 200 with an undefined
`generatedText`, because `generate.js` has no Mistral branch at all. -/
theorem C2_counterexample :
    handler ⟨some "mistral", some "k", some "k", some "k", some "k"⟩
        ⟨"POST", some "application/json", ⟨some "Hello", none, none, false, false, none, none⟩⟩
        (fun _ => Except.ok none) (fun _ => Except.ok ⟨"reply", none⟩) 0 =
      ⟨⟨200, RespBody.success none none none 0⟩, [], []⟩ := by decide

/-- C2 (amended): dispatch routes to the adapter named by the selector for
gemini, openai and yandex only — with the credential check producing the
500 config-error response before any adapter call, in the JSON text
pipeline and in the multipart audio pipeline alike — while a selector
naming mistral matches no branch: no adapter is called, no config error is
raised (the Mistral adapter exists in the codebase but is not wired into
dispatch). -/
theorem C2_dispatch_amended : ∀ (env : Env) (event : Event)
    (storeGet : String → Except String (Option Session))
    (adapter : AdapterCall → Except String ProviderResult) (now : Nat)
    (messages : List Turn) (audioB : String),
    (event.httpMethod = "POST" →
     ctStartsWith event.contentType "multipart/form-data" = false →
     ctStartsWith event.contentType "application/json" = true →
     optTruthy event.fields.prompt = true →
     (event.fields.endSession && optTruthy event.fields.sessionId) = false →
     ((jsToLower (jsOrD env.aiProvider "gemini") = "openai" →
        optTruthy env.openaiApiKey = false →
        handler env event storeGet adapter now =
          ⟨⟨500, RespBody.errorMsg "OPENAI_API_KEY не задан."⟩, [], []⟩) ∧
      (jsToLower (jsOrD env.aiProvider "gemini") = "gemini" →
        optTruthy env.geminiApiKey = false →
        handler env event storeGet adapter now =
          ⟨⟨500, RespBody.errorMsg "GEMINI_API_KEY не задан."⟩, [], []⟩) ∧
      (jsToLower (jsOrD env.aiProvider "gemini") = "yandex" →
        (optTruthy env.yandexApiKey = false ∨ optTruthy env.yandexFolderId = false) →
        handler env event storeGet adapter now =
          ⟨⟨500, RespBody.errorMsg "YANDEX_API_KEY/YANDEX_FOLDER_ID не заданы."⟩, [], []⟩))) ∧
    (event.httpMethod = "POST" →
     ctStartsWith event.contentType "multipart/form-data" = true →
     event.fields.audio = some audioB →
     (event.fields.endSession && optTruthy event.fields.sessionId) = false →
     ((jsToLower (jsOrD env.aiProvider "gemini") = "openai" →
        optTruthy env.openaiApiKey = false →
        handler env event storeGet adapter now =
          ⟨⟨500, RespBody.errorMsg "OPENAI_API_KEY не задан."⟩, [], []⟩) ∧
      (jsToLower (jsOrD env.aiProvider "gemini") = "gemini" →
        optTruthy env.geminiApiKey = false →
        handler env event storeGet adapter now =
          ⟨⟨500, RespBody.errorMsg "GEMINI_API_KEY не задан."⟩, [], []⟩) ∧
      (jsToLower (jsOrD env.aiProvider "gemini") = "yandex" →
        (optTruthy env.yandexApiKey = false ∨ optTruthy env.yandexFolderId = false) →
        handler env event storeGet adapter now =
          ⟨⟨500, RespBody.errorMsg "YANDEX_API_KEY/YANDEX_FOLDER_ID не заданы."⟩, [], []⟩))) ∧
    ((optTruthy env.openaiApiKey = true →
       (dispatchTextStep "openai" env adapter messages).callList =
         [AdapterCall.openaiText messages] ∧
       (dispatchAudioStep "openai" env adapter messages audioB).callList =
         [AdapterCall.openaiAudio messages audioB]) ∧
     (optTruthy env.geminiApiKey = true →
       (dispatchTextStep "gemini" env adapter messages).callList =
         [AdapterCall.geminiText messages] ∧
       (dispatchAudioStep "gemini" env adapter messages audioB).callList =
         [AdapterCall.geminiAudio messages audioB]) ∧
     (optTruthy env.yandexApiKey = true → optTruthy env.yandexFolderId = true →
       (dispatchTextStep "yandex" env adapter messages).callList =
         [AdapterCall.yandexText messages] ∧
       (dispatchAudioStep "yandex" env adapter messages audioB).callList =
         [AdapterCall.yandexAudio messages audioB])) ∧
    (dispatchTextStep "mistral" env adapter messages = DispatchOut.skipped ∧
     dispatchAudioStep "mistral" env adapter messages audioB = DispatchOut.skipped) := by
  intro env event storeGet adapter now messages audioB
  have hgo : ("gemini" : String) ≠ "openai" := by decide
  have hyo : ("yandex" : String) ≠ "openai" := by decide
  have hyg : ("yandex" : String) ≠ "gemini" := by decide
  have hmo : ("mistral" : String) ≠ "openai" := by decide
  have hmg : ("mistral" : String) ≠ "gemini" := by decide
  have hmy : ("mistral" : String) ≠ "yandex" := by decide
  refine ⟨fun hpost hm hj hp hes => ⟨?_, ?_, ?_⟩, fun hpost hmt ha hes => ⟨?_, ?_, ?_⟩,
    ⟨fun hk => ⟨?_, ?_⟩, fun hk => ⟨?_, ?_⟩, fun hk1 hk2 => ⟨?_, ?_⟩⟩, ?_, ?_⟩
  · intro hprov hkey
    rw [handler_json_branch env event storeGet adapter now hpost hm hj, hprov]
    simp [handleJsonBranch, hp, hes, dispatchTextStep, hkey]
  · intro hprov hkey
    rw [handler_json_branch env event storeGet adapter now hpost hm hj, hprov]
    simp [handleJsonBranch, hp, hes, dispatchTextStep, hkey, hgo]
  · intro hprov hkey
    rw [handler_json_branch env event storeGet adapter now hpost hm hj, hprov]
    rcases hkey with hkey | hkey <;>
      simp [handleJsonBranch, hp, hes, dispatchTextStep, hkey, hyo, hyg]
  · intro hprov hkey
    rw [handler_multipart_branch env event storeGet adapter now hpost hmt, hprov]
    simp [handleMultipartBranch, ha, hes, dispatchAudioStep, hkey]
  · intro hprov hkey
    rw [handler_multipart_branch env event storeGet adapter now hpost hmt, hprov]
    simp [handleMultipartBranch, ha, hes, dispatchAudioStep, hkey, hgo]
  · intro hprov hkey
    rw [handler_multipart_branch env event storeGet adapter now hpost hmt, hprov]
    rcases hkey with hkey | hkey <;>
      simp [handleMultipartBranch, ha, hes, dispatchAudioStep, hkey, hyo, hyg]
  · cases hadap : adapter (AdapterCall.openaiText messages) <;>
      simp [dispatchTextStep, hk, hadap, DispatchOut.callList]
  · cases hadap : adapter (AdapterCall.openaiAudio messages audioB) <;>
      simp [dispatchAudioStep, hk, hadap, DispatchOut.callList]
  · cases hadap : adapter (AdapterCall.geminiText messages) <;>
      simp [dispatchTextStep, hk, hgo, hadap, DispatchOut.callList]
  · cases hadap : adapter (AdapterCall.geminiAudio messages audioB) <;>
      simp [dispatchAudioStep, hk, hgo, hadap, DispatchOut.callList]
  · cases hadap : adapter (AdapterCall.yandexText messages) <;>
      simp [dispatchTextStep, hk1, hk2, hyo, hyg, hadap, DispatchOut.callList]
  · cases hadap : adapter (AdapterCall.yandexAudio messages audioB) <;>
      simp [dispatchAudioStep, hk1, hk2, hyo, hyg, hadap, DispatchOut.callList]
  · simp [dispatchTextStep, hmo, hmg, hmy]
  · simp [dispatchAudioStep, hmo, hmg, hmy]

/-- C2 witness: with selector openai and no OpenAI key, a concrete JSON
request and a concrete multipart request (carrying an audio part) each get
the config-error response with no adapter call and no store mutation; with
an OpenAI key present the text dispatch routes to the OpenAI adapter; the
mistral selector is routed nowhere. -/
theorem C2_witness :
    handler ⟨some "openai", none, none, none, none⟩
        ⟨"POST", some "application/json", ⟨some "Hello", none, none, false, false, none, none⟩⟩
        (fun _ => Except.ok none) (fun _ => Except.ok ⟨"reply", none⟩) 0 =
      ⟨⟨500, RespBody.errorMsg "OPENAI_API_KEY не задан."⟩, [], []⟩ ∧
    handler ⟨some "openai", none, none, none, none⟩
        ⟨"POST", some "multipart/form-data", ⟨none, none, none, false, false, none, some "QUJD"⟩⟩
        (fun _ => Except.ok none) (fun _ => Except.ok ⟨"reply", none⟩) 0 =
      ⟨⟨500, RespBody.errorMsg "OPENAI_API_KEY не задан."⟩, [], []⟩ ∧
    (dispatchTextStep "openai" ⟨some "openai", some "k", some "k", some "k", some "k"⟩
        (fun _ => Except.ok ⟨"reply", none⟩) [⟨Role.user, "Hello"⟩]).callList =
      [AdapterCall.openaiText [⟨Role.user, "Hello"⟩]] ∧
    dispatchTextStep "mistral" ⟨some "openai", none, none, none, none⟩
        (fun _ => Except.ok ⟨"reply", none⟩) [⟨Role.user, "Hello"⟩] = DispatchOut.skipped :=
  ⟨((C2_dispatch_amended ⟨some "openai", none, none, none, none⟩
      ⟨"POST", some "application/json", ⟨some "Hello", none, none, false, false, none, none⟩⟩
      (fun _ => Except.ok none) (fun _ => Except.ok ⟨"reply", none⟩) 0
      [⟨Role.user, "Hello"⟩] "").1 rfl (by decide) (by decide) (by decide) (by decide)).1
      (by decide) (by decide),
   ((C2_dispatch_amended ⟨some "openai", none, none, none, none⟩
      ⟨"POST", some "multipart/form-data", ⟨none, none, none, false, false, none, some "QUJD"⟩⟩
      (fun _ => Except.ok none) (fun _ => Except.ok ⟨"reply", none⟩) 0
      [⟨Role.user, "Hello"⟩] "QUJD").2.1 rfl (by decide) rfl (by decide)).1
      (by decide) (by decide),
   ((C2_dispatch_amended ⟨some "openai", some "k", some "k", some "k", some "k"⟩
      ⟨"POST", some "application/json", ⟨some "Hello", none, none, false, false, none, none⟩⟩
      (fun _ => Except.ok none) (fun _ => Except.ok ⟨"reply", none⟩) 0
      [⟨Role.user, "Hello"⟩] "").2.2.1.1 (by decide)).1,
   (C2_dispatch_amended ⟨some "openai", none, none, none, none⟩
      ⟨"POST", some "application/json", ⟨some "Hello", none, none, false, false, none, none⟩⟩
      (fun _ => Except.ok none) (fun _ => Except.ok ⟨"reply", none⟩) 0
      [⟨Role.user, "Hello"⟩] "").2.2.2.1⟩

/-- Length of an appended-and-trimmed exchange: the previous length plus
two, capped at MAX_MESSAGES_IN_SESSION. -/
theorem appendExchange_length : ∀ (msgs : List Turn) (u a : String),
    (appendExchange msgs u a).length = min (msgs.length + 2) MAX_MESSAGES_IN_SESSION := by
  intro msgs u a
  unfold appendExchange trimSessionHistory jsSliceFromEnd
  by_cases h : (msgs ++ ([⟨Role.user, u⟩, ⟨Role.assistant, a⟩] : List Turn)).length ≤ MAX_MESSAGES_IN_SESSION
  · simp only [h, if_true]
    simp [MAX_MESSAGES_IN_SESSION] at h ⊢
    omega
  · simp only [h, if_false]
    simp [MAX_MESSAGES_IN_SESSION] at h ⊢
    omega

/-- The trimmed exchange is a suffix of the appended list: what is removed
is an initial segment (oldest first), and the remainder keeps its order. -/
theorem appendExchange_take_append : ∀ (msgs : List Turn) (u a : String),
    (msgs ++ ([⟨Role.user, u⟩, ⟨Role.assistant, a⟩] : List Turn)).take
        ((msgs.length + 2) - (appendExchange msgs u a).length) ++ appendExchange msgs u a =
      msgs ++ ([⟨Role.user, u⟩, ⟨Role.assistant, a⟩] : List Turn) := by
  intro msgs u a
  have hlen : (msgs ++ ([⟨Role.user, u⟩, ⟨Role.assistant, a⟩] : List Turn)).length = msgs.length + 2 := by simp
  by_cases h : (msgs ++ ([⟨Role.user, u⟩, ⟨Role.assistant, a⟩] : List Turn)).length ≤ MAX_MESSAGES_IN_SESSION
  · have he : appendExchange msgs u a = msgs ++ ([⟨Role.user, u⟩, ⟨Role.assistant, a⟩] : List Turn) := by
      unfold appendExchange trimSessionHistory
      rw [if_pos h]
    rw [he, hlen]
    simp
  · have he : appendExchange msgs u a =
        (msgs ++ ([⟨Role.user, u⟩, ⟨Role.assistant, a⟩] : List Turn)).drop
          ((msgs ++ ([⟨Role.user, u⟩, ⟨Role.assistant, a⟩] : List Turn)).length - MAX_MESSAGES_IN_SESSION) := by
      unfold appendExchange trimSessionHistory jsSliceFromEnd
      rw [if_neg h, if_neg (by decide : ¬ MAX_MESSAGES_IN_SESSION = 0)]
    rw [he]
    have hd : ((msgs ++ ([⟨Role.user, u⟩, ⟨Role.assistant, a⟩] : List Turn)).drop
        ((msgs ++ ([⟨Role.user, u⟩, ⟨Role.assistant, a⟩] : List Turn)).length - MAX_MESSAGES_IN_SESSION)).length
        = MAX_MESSAGES_IN_SESSION := by
      rw [List.length_drop]
      simp [MAX_MESSAGES_IN_SESSION] at h ⊢
      omega
    rw [hd, hlen]
    have hidx : msgs.length + 2 - MAX_MESSAGES_IN_SESSION =
        (msgs ++ ([⟨Role.user, u⟩, ⟨Role.assistant, a⟩] : List Turn)).length - MAX_MESSAGES_IN_SESSION := by
      rw [hlen]
    rw [hidx]
    exact List.take_append_drop _ _

/-- Appending an exchange preserves evenness and the cap. -/
theorem appendExchange_inv : ∀ (msgs : List Turn) (u a : String),
    2 ∣ msgs.length →
    2 ∣ (appendExchange msgs u a).length ∧
    (appendExchange msgs u a).length ≤ MAX_MESSAGES_IN_SESSION := by
  intro msgs u a h
  rw [appendExchange_length]
  simp only [MAX_MESSAGES_IN_SESSION]
  omega

/-- The session produced by `resolveSession` satisfies the message
invariant whenever every session the store can return satisfies it (fresh
and reset sessions have no messages at all). -/
theorem resolveSession_inv : ∀ (sid : Option String) (rc : Bool) (sys : Option String)
    (storeGet : String → Except String (Option Session)) (now : Nat),
    (∀ id sData, storeGet id = Except.ok (some sData) →
      2 ∣ sData.messages.length ∧ sData.messages.length ≤ MAX_MESSAGES_IN_SESSION) →
    2 ∣ (resolveSession sid rc sys storeGet now).messages.length ∧
    (resolveSession sid rc sys storeGet now).messages.length ≤ MAX_MESSAGES_IN_SESSION := by
  intro sid rc sys storeGet now hyp
  by_cases ht : optTruthy sid
  · cases hg : storeGet (sid.getD "") with
    | error e =>
      simp [resolveSession, getSession, ht, hg, createNewSession, MAX_MESSAGES_IN_SESSION]
    | ok v =>
      cases v with
      | none =>
        simp [resolveSession, getSession, ht, hg, createNewSession, MAX_MESSAGES_IN_SESSION]
      | some sData =>
        by_cases hrc : rc
        · simp [resolveSession, getSession, ht, hg, hrc, MAX_MESSAGES_IN_SESSION]
        · simp only [resolveSession, getSession, ht, if_true, hg, hrc]
          simpa using hyp _ _ hg
  · simp [resolveSession, ht, createNewSession, MAX_MESSAGES_IN_SESSION]

/-- A save recorded by `persistExchange` stores exactly the appended and
trimmed exchange. -/
theorem persistExchange_save_mem : ∀ (sid : Option String) (session : Session)
    (u a : String) (now : Nat) (id : String) (sData : Session),
    StoreEffect.save id sData ∈ (persistExchange sid session u a now).2 →
    sData.messages = appendExchange session.messages u a := by
  intro sid session u a now id sData hm
  unfold persistExchange at hm
  by_cases h : optTruthy sid
  · simp [h] at hm
    rw [hm.2]
  · simp [h] at hm

/-- A save produced by persisting an exchange over a resolved session
satisfies the message invariant, given the store hypothesis. -/
theorem persist_effects_inv : ∀ (sid : Option String) (rc : Bool) (sys : Option String)
    (storeGet : String → Except String (Option Session)) (now : Nat)
    (u a : String) (id : String) (sData : Session),
    (∀ i sD, storeGet i = Except.ok (some sD) →
      2 ∣ sD.messages.length ∧ sD.messages.length ≤ MAX_MESSAGES_IN_SESSION) →
    StoreEffect.save id sData ∈
      (persistExchange sid (resolveSession sid rc sys storeGet now) u a now).2 →
    2 ∣ sData.messages.length ∧ sData.messages.length ≤ MAX_MESSAGES_IN_SESSION := by
  intro sid rc sys storeGet now u a id sData hyp hm
  rw [persistExchange_save_mem _ _ _ _ _ _ _ hm]
  exact appendExchange_inv _ _ _ (resolveSession_inv _ _ _ _ _ hyp).1

/-- C4: whenever every session the store can return has an even message
count at most 20, every session the handler persists also has an even
message count at most 20 (a user and an assistant turn are appended
together); and trimming drops an initial segment only, preserving the
relative order of the surviving suffix. -/
theorem C4_session_invariant : ∀ (env : Env) (event : Event)
    (storeGet : String → Except String (Option Session))
    (adapter : AdapterCall → Except String ProviderResult) (now : Nat),
    (∀ id sData, storeGet id = Except.ok (some sData) →
      2 ∣ sData.messages.length ∧ sData.messages.length ≤ MAX_MESSAGES_IN_SESSION) →
    (∀ id sData, StoreEffect.save id sData ∈ (handler env event storeGet adapter now).effects →
      2 ∣ sData.messages.length ∧ sData.messages.length ≤ MAX_MESSAGES_IN_SESSION) ∧
    (∀ (msgs : List Turn) (u a : String),
      (msgs ++ ([⟨Role.user, u⟩, ⟨Role.assistant, a⟩] : List Turn)).take
          ((msgs.length + 2) - (appendExchange msgs u a).length) ++ appendExchange msgs u a =
        msgs ++ ([⟨Role.user, u⟩, ⟨Role.assistant, a⟩] : List Turn)) := by
  intro env event storeGet adapter now hyp
  refine ⟨?_, fun msgs u a => appendExchange_take_append msgs u a⟩
  intro id sData hm
  by_cases hpost : event.httpMethod = "POST"
  · by_cases hct1 : ctStartsWith event.contentType "multipart/form-data" = true
    · rw [handler_multipart_branch env event storeGet adapter now hpost hct1] at hm
      rcases handleMultipart_spec (jsToLower (jsOrD env.aiProvider "gemini")) env event.fields
          storeGet adapter now _ _ rfl rfl with
        ⟨_, hr⟩ | ⟨ab, _, ⟨_, hr⟩ | ⟨_, hcase⟩⟩
      · rw [hr] at hm; simp at hm
      · rw [hr] at hm; simp at hm
      · rcases hcase with ⟨m', hd, hr⟩ | ⟨c', m', hd, hr⟩ | ⟨c', t', tr', hd, hr⟩ | ⟨hd, hr⟩
        · rw [hr] at hm; simp at hm
        · rw [hr] at hm; simp at hm
        · rw [hr] at hm
          exact persist_effects_inv _ _ _ _ _ _ _ _ _ hyp hm
        · rw [hr] at hm
          exact persist_effects_inv _ _ _ _ _ _ _ _ _ hyp hm
    · by_cases hct2 : ctStartsWith event.contentType "application/json" = true
      · rw [handler_json_branch env event storeGet adapter now hpost
          (by simpa using hct1) hct2] at hm
        rcases handleJson_spec (jsToLower (jsOrD env.aiProvider "gemini")) env event.fields
            storeGet adapter now _ _ rfl rfl with
          ⟨_, hr⟩ | ⟨_, _, hr⟩ | ⟨_, _, hcase⟩
        · rw [hr] at hm; simp at hm
        · rw [hr] at hm; simp at hm
        · rcases hcase with ⟨m', hd, hr⟩ | ⟨c', m', hd, hr⟩ | ⟨c', t', tr', hd, hr⟩ | ⟨hd, hr⟩
          · rw [hr] at hm; simp at hm
          · rw [hr] at hm; simp at hm
          · rw [hr] at hm
            exact persist_effects_inv _ _ _ _ _ _ _ _ _ hyp hm
          · rw [hr] at hm
            exact persist_effects_inv _ _ _ _ _ _ _ _ _ hyp hm
      · have := handler_other_empty env event storeGet adapter now
          (Or.inr ⟨by simpa using hct1, by simpa using hct2⟩)
        rw [this.1] at hm
        simp at hm
  · have := handler_other_empty env event storeGet adapter now (Or.inl hpost)
    rw [this.1] at hm
    simp at hm

/-- C4 witness: a concrete exchange over a two-message session persists a
four-message (even, within-cap) session. -/
theorem C4_witness :
    2 ∣ (Session.mk "" [⟨Role.user, "a"⟩, ⟨Role.assistant, "b"⟩, ⟨Role.user, "Hello"⟩,
          ⟨Role.assistant, "reply"⟩] 0 5).messages.length ∧
    (Session.mk "" [⟨Role.user, "a"⟩, ⟨Role.assistant, "b"⟩, ⟨Role.user, "Hello"⟩,
          ⟨Role.assistant, "reply"⟩] 0 5).messages.length ≤ MAX_MESSAGES_IN_SESSION :=
  (C4_session_invariant ⟨some "gemini", some "k", none, none, none⟩
    ⟨"POST", some "application/json", ⟨some "Hello", none, some "s1", false, false, none, none⟩⟩
    (fun _ => Except.ok (some ⟨"", [⟨Role.user, "a"⟩, ⟨Role.assistant, "b"⟩], 0, 0⟩))
    (fun _ => Except.ok ⟨"reply", none⟩) 5
    (by intro i sD h; simp at h; rw [← h]; decide)).1 "s1" _ (by decide)

/-- With all four credentials present the text dispatch never takes the
credential-error path. -/
theorem dispatchText_keyMissing_false : ∀ (provider : String) (env : Env)
    (adapter : AdapterCall → Except String ProviderResult) (messages : List Turn) (m : String),
    optTruthy env.openaiApiKey = true → optTruthy env.geminiApiKey = true →
    optTruthy env.yandexApiKey = true → optTruthy env.yandexFolderId = true →
    dispatchTextStep provider env adapter messages ≠ DispatchOut.keyMissing m := by
  intro provider env adapter messages m h1 h2 h3 h4 hcontra
  unfold dispatchTextStep at hcontra
  repeat' split at hcontra
  all_goals simp_all

/-- A failed text dispatch outcome records the adapter call that errored
and carries its message. -/
theorem dispatchText_failed_err : ∀ (provider : String) (env : Env)
    (adapter : AdapterCall → Except String ProviderResult) (messages : List Turn)
    (c : AdapterCall) (m : String),
    dispatchTextStep provider env adapter messages = DispatchOut.failed c m →
    adapter c = Except.error m := by
  intro provider env adapter messages c m h
  unfold dispatchTextStep at h
  repeat' split at h
  all_goals cases h
  all_goals assumption

/-- In the `if (sessionId)` block with a truthy id, `persistExchange`
produces the updated session and exactly one save of it. -/
theorem persistExchange_truthy : ∀ (sid : Option String) (session : Session)
    (u a : String) (now : Nat), optTruthy sid = true →
    persistExchange sid session u a now =
      ({ session with messages := appendExchange session.messages u a, lastActivity := now },
       [StoreEffect.save (sid.getD "")
          { session with messages := appendExchange session.messages u a, lastActivity := now }]) := by
  intro sid session u a now h
  simp [persistExchange, h]

/-- C9 counterexample: a text exchange over a session already at the
20-message cap persists a session whose message count is still 20 — not
the previous count plus 2 as the claim states. -/
theorem C9_counterexample :
    (handler ⟨some "gemini", some "k", none, none, none⟩
        ⟨"POST", some "application/json", ⟨some "Hello", none, some "s1", false, false, none, none⟩⟩
        (fun _ => Except.ok (some ⟨"", List.replicate 20 ⟨Role.user, "x"⟩, 0, 0⟩))
        (fun _ => Except.ok ⟨"reply", none⟩) 5).effects =
      [StoreEffect.save "s1"
        ⟨"", List.replicate 18 ⟨Role.user, "x"⟩ ++ [⟨Role.user, "Hello"⟩, ⟨Role.assistant, "reply"⟩], 0, 5⟩] ∧
    (List.replicate 18 (⟨Role.user, "x"⟩ : Turn) ++
        ([⟨Role.user, "Hello"⟩, ⟨Role.assistant, "reply"⟩] : List Turn)).length = 20 ∧
    (20 : Nat) ≠ (List.replicate 20 (⟨Role.user, "x"⟩ : Turn)).length + 2 := by decide

/-- C9 (amended): after a successful JSON text exchange with a truthy
sessionId (all credentials present, adapter succeeding), exactly one
session is saved; its message count is `min(previous + 2, 20)` — an
increase of exactly 2 whenever the resolved session held at most 18
messages, and unchanged at the 20-message cap — and the response is 200
with `turns = floor(new message count / 2)`. -/
theorem C9_turns_amended : ∀ (env : Env) (event : Event)
    (storeGet : String → Except String (Option Session))
    (adapter : AdapterCall → Except String ProviderResult) (now : Nat),
    event.httpMethod = "POST" →
    ctStartsWith event.contentType "multipart/form-data" = false →
    ctStartsWith event.contentType "application/json" = true →
    optTruthy event.fields.prompt = true →
    event.fields.endSession = false →
    optTruthy event.fields.sessionId = true →
    optTruthy env.openaiApiKey = true →
    optTruthy env.geminiApiKey = true →
    optTruthy env.yandexApiKey = true →
    optTruthy env.yandexFolderId = true →
    (∀ c, ∃ r, adapter c = Except.ok r) →
    ∃ sData,
      (handler env event storeGet adapter now).effects =
        [StoreEffect.save (event.fields.sessionId.getD "") sData] ∧
      sData.messages.length =
        min ((resolveSession event.fields.sessionId event.fields.resetContext
          event.fields.system storeGet now).messages.length + 2) MAX_MESSAGES_IN_SESSION ∧
      ∃ g, (handler env event storeGet adapter now).resp =
        ⟨200, RespBody.success g none event.fields.sessionId (sData.messages.length / 2)⟩ := by
  intro env event storeGet adapter now hpost hmct hjct hp hesF hsid k1 k2 k3 k4 hok
  rw [handler_json_branch env event storeGet adapter now hpost hmct hjct]
  have hes : (event.fields.endSession && optTruthy event.fields.sessionId) = false := by
    simp [hesF]
  rcases handleJson_spec (jsToLower (jsOrD env.aiProvider "gemini")) env event.fields
      storeGet adapter now _ _ rfl rfl with
    ⟨hpf, _⟩ | ⟨_, hest, _⟩ | ⟨_, _, hcase⟩
  · rw [hp] at hpf
    exact absurd hpf (by simp)
  · rw [hes] at hest
    exact absurd hest (by simp)
  · rcases hcase with ⟨m', hd, hr⟩ | ⟨c', m', hd, hr⟩ | ⟨c', t', tr', hd, hr⟩ | ⟨hd, hr⟩
    · exact absurd hd (dispatchText_keyMissing_false _ _ _ _ _ k1 k2 k3 k4)
    · have herr := dispatchText_failed_err _ _ _ _ _ _ hd
      obtain ⟨r, hokc⟩ := hok c'
      rw [hokc] at herr
      exact absurd herr (by simp)
    · rw [hr, persistExchange_truthy _ _ _ _ _ hsid]
      refine ⟨_, rfl, ?_, ⟨t', rfl⟩⟩
      exact appendExchange_length _ _ _
    · rw [hr, persistExchange_truthy _ _ _ _ _ hsid]
      refine ⟨_, rfl, ?_, ⟨none, rfl⟩⟩
      exact appendExchange_length _ _ _

/-- C9 witness: the amended theorem at a concrete fresh-session exchange
(the store holds nothing, so the resolved session is fresh and the saved
message count is min(0 + 2, 20) = 2, with turns 1). -/
theorem C9_witness :
    ∃ sData,
      (handler ⟨some "gemini", some "g", some "o", some "y", some "f"⟩
          ⟨"POST", some "application/json",
            ⟨some "Hello", none, some "s1", false, false, none, none⟩⟩
          (fun _ => Except.ok none) (fun _ => Except.ok ⟨"reply", none⟩) 5).effects =
        [StoreEffect.save ((some "s1" : Option String).getD "") sData] ∧
      sData.messages.length =
        min ((resolveSession (some "s1") false none (fun _ => Except.ok none) 5).messages.length + 2)
          MAX_MESSAGES_IN_SESSION ∧
      ∃ g, (handler ⟨some "gemini", some "g", some "o", some "y", some "f"⟩
          ⟨"POST", some "application/json",
            ⟨some "Hello", none, some "s1", false, false, none, none⟩⟩
          (fun _ => Except.ok none) (fun _ => Except.ok ⟨"reply", none⟩) 5).resp =
        ⟨200, RespBody.success g none (some "s1") (sData.messages.length / 2)⟩ :=
  C9_turns_amended ⟨some "gemini", some "g", some "o", some "y", some "f"⟩
    ⟨"POST", some "application/json", ⟨some "Hello", none, some "s1", false, false, none, none⟩⟩
    (fun _ => Except.ok none) (fun _ => Except.ok ⟨"reply", none⟩) 5
    rfl (by decide) (by decide) (by decide) rfl (by decide)
    (by decide) (by decide) (by decide) (by decide) (fun c => ⟨⟨"reply", none⟩, rfl⟩)
